import Mathlib

/-!
Verification development for the `medical_ocr` backend (`src/main.py`).

The development shallowly embeds:
* `find_medicine_details` (the two-tier lookup over the medicine table),
  including a fragment model of the regex semantics of
  `pandas.Series.str.contains(pat, case=False, na=False)`, whose default is
  `regex=True`: the pattern is compiled with `re.compile(pat, re.IGNORECASE)`
  and matched with `re.search`.  The fragment covers literal characters,
  `.`, groups, `*`, `+`, `?`, `{m,n}` quantifiers, `|`, character classes,
  and the compile-time errors Python raises for malformed patterns
  (unbalanced parentheses, nothing to repeat, ...).  Constructs outside the
  fragment (anchors `^`/`$`, letter escapes such as `\d`, lazy/possessive
  repeat suffixes, group extensions `(?...)`) are mapped to an explicit
  `Except.error`; no theorem below evaluates such a pattern.
* `extract_data_from_image` (response cleanup and JSON parsing), with a
  JSON parser modelling `json.loads` (strict JSON plus the non-standard
  `NaN`/`Infinity` literals CPython accepts; numbers are kept as lexemes;
  duplicate object keys keep the first position and the last value, like a
  Python dict).
* the `/extract-medicine-data/` request handler `extract_medicine_data`,
  with the temp-file lifecycle modelled as an event trace and a raised
  Python exception modelled as `Except.error`.
-/

/-! ## Python regex fragment: syntax -/

/-- One item of a character class `[...]`. -/
inductive ClsItem where
  | one (c : Char)
  | range (lo hi : Char)

/-- Regular expressions, as compiled from the pattern string.
`plus`/`opt`/`{m,n}` are desugared into `seq`/`star`/`alt`. -/
inductive Re where
  | eps
  | void
  | lit (c : Char)
  | dot
  | cls (neg : Bool) (items : List ClsItem)
  | seq (a b : Re)
  | alt (a b : Re)
  | star (a : Re)

/-- Does the regex accept the empty string? -/
def Re.nullable : Re → Bool
  | .eps => true
  | .void => false
  | .lit _ => false
  | .dot => false
  | .cls _ _ => false
  | .seq a b => a.nullable && b.nullable
  | .alt a b => a.nullable || b.nullable
  | .star _ => true

/-- Smart `seq` used by the derivative (simplifies `void`/`eps` on the left). -/
def Re.dseq : Re → Re → Re
  | .void, _ => .void
  | .eps, b => b
  | a, b => .seq a b

/-- Smart `alt` used by the derivative (drops `void` branches). -/
def Re.dalt : Re → Re → Re
  | .void, b => b
  | a, .void => a
  | a, b => .alt a b

/-- Class membership test.  `re.IGNORECASE` is modelled by comparing
lowercased characters on single items (ranges are compared as given;
no theorem below evaluates a class). -/
def clsMatch (items : List ClsItem) (c : Char) : Bool :=
  items.any fun it =>
    match it with
    | .one d => d.toLower == c.toLower
    | .range lo hi => lo ≤ c && c ≤ hi

/-- Brzozowski derivative.  `re.IGNORECASE` is modelled by comparing
lowercased characters at `lit`. -/
def Re.deriv : Re → Char → Re
  | .eps, _ => .void
  | .void, _ => .void
  | .lit l, a => if l.toLower == a.toLower then .eps else .void
  | .dot, a => if a = '\n' then .void else .eps
  | .cls neg items, a => if (clsMatch items a) != neg then .eps else .void
  | .seq x y, a =>
    if x.nullable then Re.dalt (Re.dseq (x.deriv a) y) (y.deriv a)
    else Re.dseq (x.deriv a) y
  | .alt x y, a => Re.dalt (x.deriv a) (y.deriv a)
  | .star x, a => Re.dseq (x.deriv a) (.star x)

/-- Does some prefix of `s` match `r`? -/
def matchesHere : Re → List Char → Bool
  | r, [] => r.nullable
  | r, c :: t => r.nullable || matchesHere (r.deriv c) t

/-- `re.search` as a Boolean: does `r` match somewhere inside `s`? -/
def reSearch : Re → List Char → Bool
  | r, [] => r.nullable
  | r, c :: t => matchesHere r (c :: t) || reSearch r t

/-! ## Python regex fragment: pattern compilation (`re.compile`) -/

/-- The characters `re` treats as special: `. ^ $ * + ? { } [ ] \ | ( )`. -/
def reSpecials : List Char :=
  ['.', '^', '$', '*', '+', '?', '\x7b', '\x7d', '[', ']', '\\', '|', '(', ')']

/-- A pattern character that stands for itself in a regex. -/
def isPlainChar (c : Char) : Bool := !(reSpecials.contains c)

/-- A pattern string containing no regex metacharacter: for such patterns
`re.search` coincides with plain substring search. -/
def isPlainPat (s : String) : Bool := s.data.all isPlainChar

/-- Sequence a list of regexes. -/
def seqList (l : List Re) : Re := l.foldr Re.seq Re.eps

/-- The regex of a literal character list. -/
def litSeq (l : List Char) : Re := seqList (l.map Re.lit)

/-- Alternation of a nonempty list of branches. -/
def altList : List Re → Re
  | [] => .void
  | [r] => r
  | r :: rest => .alt r (altList rest)

/-- Parser frame: one `(`-delimited group in progress.  `alts` holds the
completed `|`-branches (reversed), `acc` the atoms of the current branch
(reversed), each tagged with whether it is a repeat (for Python's
"multiple repeat" error). -/
structure PFrame where
  alts : List Re
  acc : List (Re × Bool)

/-- The regex of the current branch of a frame. -/
def accRe (acc : List (Re × Bool)) : Re := seqList (acc.reverse.map Prod.fst)

/-- The regex of a completed frame. -/
def frameRe (f : PFrame) : Re := altList (f.alts.reverse ++ [accRe f.acc])

/-- Push an atom onto the current branch of the top frame. -/
def pushAtom (st : List PFrame) (r : Re) (isRep : Bool) : List PFrame :=
  match st with
  | [] => []
  | f :: rest => { f with acc := (r, isRep) :: f.acc } :: rest

/-- Digits to a natural number. -/
def digitsToNat (ds : List Char) : Nat :=
  ds.foldl (fun n c => n * 10 + (c.toNat - 48)) 0

/-- Scan a `{m}` / `{m,}` / `{m,n}` quantifier body (after the opening
brace).  `none` means the brace is not a valid quantifier and is a literal,
as in Python. -/
def scanQuant (s : List Char) : Option (Nat × Option Nat × List Char) :=
  let ds := s.takeWhile Char.isDigit
  let r1 := s.dropWhile Char.isDigit
  if ds.isEmpty then none
  else
    match r1 with
    | '\x7d' :: rest => some (digitsToNat ds, some (digitsToNat ds), rest)
    | ',' :: r2 =>
      let ds2 := r2.takeWhile Char.isDigit
      let r3 := r2.dropWhile Char.isDigit
      match r3 with
      | '\x7d' :: rest =>
        some (digitsToNat ds, if ds2.isEmpty then none else some (digitsToNat ds2), rest)
      | _ => none
    | _ => none

/-- Desugar a bounded repeat. -/
def repRe (r : Re) (m : Nat) (bound : Option Nat) : Re :=
  match bound with
  | none => seqList (List.replicate m r ++ [Re.star r])
  | some k => seqList (List.replicate m r ++ List.replicate (k - m) (Re.alt Re.eps r))

/-- Scan the body of a character class after `[` (and after a leading `^`
or literal `]` have been taken by the caller), up to the closing `]`.
An unterminated class is the Python error "unterminated character set". -/
def scanClsBody : List Char → Except String (List ClsItem × List Char)
  | [] => .error "unterminated character set"
  | ']' :: rest => .ok ([], rest)
  | '\\' :: [] => .error "bad escape (end of pattern)"
  | '\\' :: d :: rest =>
    if d.isAlphanum then .error "unsupported class escape (outside modelled fragment)"
    else
      match scanClsBody rest with
      | .ok (is, r) => .ok (ClsItem.one d :: is, r)
      | .error e => .error e
  | c :: '-' :: d :: rest =>
    if d = ']' then .ok ([ClsItem.one c, ClsItem.one '-'], rest)
    else if d = '\\' then .error "unsupported class range (outside modelled fragment)"
    else if d < c then .error "bad character range"
    else
      match scanClsBody rest with
      | .ok (is, r) => .ok (ClsItem.range c d :: is, r)
      | .error e => .error e
  | c :: rest =>
    match scanClsBody rest with
    | .ok (is, r) => .ok (ClsItem.one c :: is, r)
    | .error e => .error e

/-- Scan a whole character class after the opening `[`. -/
def scanCls (s : List Char) : Except String (Re × List Char) :=
  let (neg, s1) := match s with | '^' :: t => (true, t) | _ => (false, s)
  let (lead, s2) := match s1 with | ']' :: t => ([ClsItem.one ']'], t) | _ => ([], s1)
  match scanClsBody s2 with
  | .ok (is, r) => .ok (Re.cls neg (lead ++ is), r)
  | .error e => .error e

/-- One step of the pattern parser: consume the character `c` (with `rest`
following it) against the stack of open groups.  Returns the new stack and
the remaining input, or a compile error. -/
def goStep (c : Char) (rest : List Char) (st : List PFrame) :
    Except String (List PFrame × List Char) :=
  if c = '\\' then
    match rest with
    | [] => .error "bad escape (end of pattern)"
    | d :: rest2 =>
      if d.isAlphanum then .error "unsupported escape (outside modelled fragment)"
      else .ok (pushAtom st (Re.lit d) false, rest2)
  else if c = '[' then
    match scanCls rest with
    | .error e => .error e
    | .ok (r, rest2) => .ok (pushAtom st r false, rest2)
  else if c = '(' then
    match rest with
    | '?' :: _ => .error "unsupported group extension (outside modelled fragment)"
    | _ => .ok ({ alts := [], acc := [] } :: st, rest)
  else if c = ')' then
    match st with
    | [] => .error "unbalanced parenthesis"
    | [_] => .error "unbalanced parenthesis"
    | f :: g :: stRest => .ok (pushAtom (g :: stRest) (frameRe f) false, rest)
  else if c = '|' then
    match st with
    | [] => .error "internal: empty stack"
    | f :: stRest => .ok ({ alts := accRe f.acc :: f.alts, acc := [] } :: stRest, rest)
  else if c = '*' ∨ c = '+' ∨ c = '?' then
    match st with
    | [] => .error "internal: empty stack"
    | f :: stRest =>
      match f.acc with
      | [] => .error "nothing to repeat"
      | (a, isRep) :: accRest =>
        if isRep then .error "multiple repeat (lazy and possessive suffixes outside modelled fragment)"
        else
          let r := if c = '*' then Re.star a
                   else if c = '+' then Re.seq a (Re.star a)
                   else Re.alt Re.eps a
          .ok ({ f with acc := (r, true) :: accRest } :: stRest, rest)
  else if c = '\x7b' then
    match scanQuant rest with
    | none => .ok (pushAtom st (Re.lit c) false, rest)
    | some (m, bound, rest2) =>
      match st with
      | [] => .error "internal: empty stack"
      | f :: stRest =>
        match f.acc with
        | [] => .ok (pushAtom st (Re.lit c) false, rest)
        | (a, isRep) :: accRest =>
          if isRep then .error "multiple repeat"
          else
            match bound with
            | some k =>
              if k < m then .error "min repeat greater than max"
              else .ok ({ f with acc := (repRe a m (some k), true) :: accRest } :: stRest, rest2)
            | none => .ok ({ f with acc := (repRe a m none, true) :: accRest } :: stRest, rest2)
  else if c = '.' then .ok (pushAtom st Re.dot false, rest)
  else if c = '^' ∨ c = '$' then .error "unsupported anchor (outside modelled fragment)"
  else .ok (pushAtom st (Re.lit c) false, rest)

/-- The main pattern parser: one pass over the pattern with a stack of open
groups.  `fuel` only bounds the recursion; every step consumes at least one
input character, so `compilePy` below always supplies enough. -/
def goParse (fuel : Nat) (st : List PFrame) (s : List Char) : Except String Re :=
  match fuel with
  | 0 => .error "internal: fuel exhausted"
  | fuel + 1 =>
    match s with
    | [] =>
      match st with
      | [f] => .ok (frameRe f)
      | _ => .error "missing ), unterminated subpattern"
    | c :: rest =>
      match goStep c rest st with
      | .error e => .error e
      | .ok (st2, s2) => goParse fuel st2 s2

/-- `re.compile(pat, re.IGNORECASE)` on the modelled fragment:
`.error` is a raised `re.error` (or an out-of-fragment construct). -/
def compilePy (pat : String) : Except String Re :=
  goParse (pat.data.length + 1) [{ alts := [], acc := [] }] pat.data

/-! ## Case-insensitive substring search (the spec's notion of matching) -/

/-- Case-insensitive prefix test, comparing lowercased characters. -/
def prefixCI : List Char → List Char → Bool
  | [], _ => true
  | _ :: _, [] => false
  | c :: q, a :: s => (c.toLower == a.toLower) && prefixCI q s

/-- Case-insensitive unanchored substring test: does `q` occur inside `s`? -/
def hasSubstrCI (q : List Char) : List Char → Bool
  | [] => prefixCI q []
  | a :: t => prefixCI q (a :: t) || hasSubstrCI q t

/-- Case-insensitive substring test on strings. -/
def substrCI (needle hay : String) : Bool := hasSubstrCI needle.data hay.data

/-- Case-sensitive prefix-at-some-position substring test (Python's
`x in s` on strings). -/
def hasSubCS (q : List Char) : List Char → Bool
  | [] => q.isEmpty
  | c :: t => q.isPrefixOf (c :: t) || hasSubCS q t

/-! ## The medicine dataset and `find_medicine_details` (src/main.py:45-77) -/

/-- One row of `medicine_data.csv` as seen by `find_medicine_details`.
`none` in a cell models a pandas `NaN` (a missing cell): `na=False` makes
such rows non-matching, and `Series.get` passes the hole through. -/
structure MedicineRow where
  medicineName : Option String
  composition : Option String
  uses : Option String
  sideEffects : Option String
deriving DecidableEq

/-- The dict `{"uses": ..., "side_effects": ...}` built from a matched row. -/
structure LookupDetails where
  uses : Option String
  side_effects : Option String
deriving DecidableEq

/-- `pd.Series.str.contains(pat, case=False, na=False)` on one cell, given
the compiled pattern. -/
def rowMatch (re : Re) (field : Option String) : Bool :=
  match field with
  | none => false
  | some s => reSearch re s.data

/-- `{"uses": first_match.get("Uses"), "side_effects": first_match.get("Side_effects")}`. -/
def detailsOf (r : MedicineRow) : LookupDetails := ⟨r.uses, r.sideEffects⟩

/-- Tier 1 of `find_medicine_details` (src/main.py:53-60): the name search.
`.error` models the `re.error` that `str.contains` raises on a malformed
pattern. -/
def tier1 (rows : List MedicineRow) (medicine_name : Option String) :
    Except String (Option LookupDetails) :=
  match medicine_name with
  | none => .ok none
  | some nm =>
    if nm = "" then .ok none
    else
      match compilePy nm with
      | .error e => .error e
      | .ok re =>
        .ok (((rows.filter fun r => rowMatch re r.medicineName).head?).map detailsOf)

/-- Python `str.strip()` whitespace (ASCII fragment; the strings exercised
below contain no exotic Unicode spaces). -/
def isPyWS (c : Char) : Bool :=
  c == ' ' || c == '\t' || c == '\n' || c == '\r' || c == '\x0b' || c == '\x0c'

/-- Python `str.strip()`. -/
def pyStrip (s : String) : String :=
  String.mk (((s.data.dropWhile isPyWS).reverse.dropWhile isPyWS).reverse)

/-- `salt.split('(')[0].strip()` (src/main.py:66). -/
def cleanSalt (s : String) : String :=
  pyStrip (String.mk (s.data.takeWhile fun c => c ≠ '('))

/-- Tier 2 of `find_medicine_details` (src/main.py:63-76): the loop over
`active_salts`. -/
def tier2 (rows : List MedicineRow) : List String → Except String (Option LookupDetails)
  | [] => .ok none
  | salt :: rest =>
    let c := cleanSalt salt
    if c = "" then tier2 rows rest
    else
      match compilePy c with
      | .error e => .error e
      | .ok re =>
        match (rows.filter fun r => rowMatch re r.composition).head? with
        | some r => .ok (some (detailsOf r))
        | none => tier2 rows rest

/-- `find_medicine_details` (src/main.py:45-77).  `df = none` models
`df_medicines is None` (missing CSV); `active_salts = none` models Python
`None` (`if active_salts:` is then false, as for `[]`).  The result is
`.ok none` for "no match", `.ok (some d)` for a match, and `.error e` for a
raised exception. -/
def find_medicine_details (df : Option (List MedicineRow))
    (medicine_name : Option String) (active_salts : Option (List String)) :
    Except String (Option LookupDetails) :=
  match df with
  | none => .ok none
  | some rows =>
    if rows.isEmpty then .ok none
    else
      match tier1 rows medicine_name with
      | .error e => .error e
      | .ok (some d) => .ok (some d)
      | .ok none =>
        match active_salts with
        | none => .ok none
        | some salts => tier2 rows salts

/-! ### Spec-level (substring) matching, for stating the claims -/

/-- The spec's matching predicate on one cell: case-insensitive unanchored
substring containment, missing cells non-matching. -/
def fieldHasCI (needle : String) (field : Option String) : Bool :=
  match field with
  | none => false
  | some s => substrCI needle s

/-- First row (dataset order) whose name field contains `nm` as a
case-insensitive substring. -/
def nameFirstMatch (rows : List MedicineRow) (nm : String) : Option MedicineRow :=
  (rows.filter fun r => fieldHasCI nm r.medicineName).head?

/-- First row (dataset order) whose composition field contains the cleaned
salt as a case-insensitive substring; `none` also when the cleaned salt is
empty (such salts are skipped). -/
def saltFirstMatch (rows : List MedicineRow) (salt : String) : Option MedicineRow :=
  if cleanSalt salt = "" then none
  else (rows.filter fun r => fieldHasCI (cleanSalt salt) r.composition).head?

/-! ## JSON values and a model of `json.loads` -/

/-- JSON values.  Numbers are kept as their lexeme (no float arithmetic is
ever performed on them in the program). -/
inductive Json where
  | null
  | bool (b : Bool)
  | num (lex : String)
  | str (s : String)
  | arr (xs : List Json)
  | obj (kvs : List (String × Json))

/-- JSON whitespace (`json.loads` skips exactly these). -/
def jsonWSb (c : Char) : Bool := c == ' ' || c == '\t' || c == '\n' || c == '\r'

/-- Insert into a Python dict association list: an existing key keeps its
position and takes the new value; a new key is appended. -/
def insertKV (kvs : List (String × Json)) (k : String) (v : Json) :
    List (String × Json) :=
  match kvs with
  | [] => [(k, v)]
  | (k', v') :: t => if k' = k then (k, v) :: t else (k', v') :: insertKV t k v

/-- Hex digit value. -/
def hexVal (c : Char) : Option Nat :=
  if '0' ≤ c ∧ c ≤ '9' then some (c.toNat - 48)
  else if 'a' ≤ c ∧ c ≤ 'f' then some (c.toNat - 87)
  else if 'A' ≤ c ∧ c ≤ 'F' then some (c.toNat - 55)
  else none

/-- Four hex digits. -/
def parseHex4 : List Char → Option (Nat × List Char)
  | a :: b :: c :: d :: rest =>
    match hexVal a, hexVal b, hexVal c, hexVal d with
    | some x, some y, some z, some w => some (((x * 16 + y) * 16 + z) * 16 + w, rest)
    | _, _, _, _ => none
  | _ => none

/-- The characters of a JSON string after the opening quote, handling
escapes.  `\uXXXX` surrogate pairs are combined; a lone surrogate is
rejected (CPython would build a lone-surrogate `str`, which has no
counterpart in `Char`; no theorem below evaluates one). -/
def jstrChars : Nat → List Char → Option (List Char × List Char)
  | 0, _ => none
  | _, [] => none
  | _ + 1, '"' :: rest => some ([], rest)
  | fuel + 1, '\\' :: e :: rest =>
    if e = '"' ∨ e = '\\' ∨ e = '/' then
      match jstrChars fuel rest with
      | some (cs, r) => some (e :: cs, r)
      | none => none
    else if e = 'b' ∨ e = 'f' ∨ e = 'n' ∨ e = 'r' ∨ e = 't' then
      let c := if e = 'b' then '\x08' else if e = 'f' then '\x0c'
               else if e = 'n' then '\n' else if e = 'r' then '\r' else '\t'
      match jstrChars fuel rest with
      | some (cs, r) => some (c :: cs, r)
      | none => none
    else if e = 'u' then
      match parseHex4 rest with
      | none => none
      | some (n, rest2) =>
        if 0xD800 ≤ n ∧ n ≤ 0xDBFF then
          match rest2 with
          | '\\' :: 'u' :: rest3 =>
            match parseHex4 rest3 with
            | some (m, rest4) =>
              if 0xDC00 ≤ m ∧ m ≤ 0xDFFF then
                match jstrChars fuel rest4 with
                | some (cs, r) =>
                  some (Char.ofNat (0x10000 + (n - 0xD800) * 0x400 + (m - 0xDC00)) :: cs, r)
                | none => none
              else none
            | none => none
          | _ => none
        else if 0xDC00 ≤ n ∧ n ≤ 0xDFFF then none
        else
          match jstrChars fuel rest2 with
          | some (cs, r) => some (Char.ofNat n :: cs, r)
          | none => none
    else none
  | fuel + 1, c :: rest =>
    if c.toNat < 32 then none
    else
      match jstrChars fuel rest with
      | some (cs, r) => some (c :: cs, r)
      | none => none

/-- A JSON number lexeme (strict grammar: optional `-`, no leading zeros,
optional fraction and exponent). -/
def jparseNum (s : List Char) : Option (Json × List Char) :=
  let (sgn, s1) := match s with | '-' :: t => (['-'], t) | _ => (([] : List Char), s)
  let intPart : Option (List Char × List Char) :=
    match s1 with
    | '0' :: t =>
      match t with
      | d :: _ => if d.isDigit then none else some (['0'], t)
      | [] => some (['0'], [])
    | c :: t =>
      if c.isDigit then some (c :: t.takeWhile Char.isDigit, t.dropWhile Char.isDigit)
      else none
    | [] => none
  match intPart with
  | none => none
  | some (ip, s2) =>
    let fracPart : Option (List Char × List Char) :=
      match s2 with
      | '.' :: t =>
        let ds := t.takeWhile Char.isDigit
        if ds.isEmpty then none else some ('.' :: ds, t.dropWhile Char.isDigit)
      | _ => some ([], s2)
    match fracPart with
    | none => none
    | some (fp, s3) =>
      let expPart : Option (List Char × List Char) :=
        match s3 with
        | e :: t =>
          if e = 'e' ∨ e = 'E' then
            let (sg, t2) := match t with
              | '+' :: u => (['+'], u)
              | '-' :: u => (['-'], u)
              | _ => (([] : List Char), t)
            let ds := t2.takeWhile Char.isDigit
            if ds.isEmpty then none else some (e :: sg ++ ds, t2.dropWhile Char.isDigit)
          else some ([], s3)
        | [] => some ([], [])
      match expPart with
      | none => none
      | some (ep, s4) => some (Json.num (String.mk (sgn ++ ip ++ fp ++ ep)), s4)

mutual

/-- One JSON value (no leading whitespace). -/
def jparseVal : Nat → List Char → Option (Json × List Char)
  | 0, _ => none
  | fuel + 1, s =>
    match s with
    | 'n' :: 'u' :: 'l' :: 'l' :: r => some (Json.null, r)
    | 't' :: 'r' :: 'u' :: 'e' :: r => some (Json.bool true, r)
    | 'f' :: 'a' :: 'l' :: 's' :: 'e' :: r => some (Json.bool false, r)
    | 'N' :: 'a' :: 'N' :: r => some (Json.num "NaN", r)
    | 'I' :: 'n' :: 'f' :: 'i' :: 'n' :: 'i' :: 't' :: 'y' :: r =>
      some (Json.num "Infinity", r)
    | '-' :: 'I' :: 'n' :: 'f' :: 'i' :: 'n' :: 'i' :: 't' :: 'y' :: r =>
      some (Json.num "-Infinity", r)
    | '"' :: r =>
      match jstrChars (r.length + 1) r with
      | some (cs, r2) => some (Json.str (String.mk cs), r2)
      | none => none
    | '[' :: r =>
      let r1 := r.dropWhile jsonWSb
      match r1 with
      | ']' :: r2 => some (Json.arr [], r2)
      | _ => jparseElems fuel r1 []
    | '\x7b' :: r =>
      let r1 := r.dropWhile jsonWSb
      match r1 with
      | '\x7d' :: r2 => some (Json.obj [], r2)
      | _ => jparseMembers fuel r1 []
    | _ => jparseNum s

/-- Array elements after `[` (at least one), accumulated in reverse. -/
def jparseElems : Nat → List Char → List Json → Option (Json × List Char)
  | 0, _, _ => none
  | fuel + 1, s, acc =>
    match jparseVal fuel s with
    | none => none
    | some (v, r) =>
      let r1 := r.dropWhile jsonWSb
      match r1 with
      | ',' :: r2 => jparseElems fuel (r2.dropWhile jsonWSb) (v :: acc)
      | ']' :: r2 => some (Json.arr (v :: acc).reverse, r2)
      | _ => none

/-- Object members after `{` (at least one), accumulated in reverse. -/
def jparseMembers : Nat → List Char → List (String × Json) →
    Option (Json × List Char)
  | 0, _, _ => none
  | fuel + 1, s, acc =>
    match s with
    | '"' :: r =>
      match jstrChars (r.length + 1) r with
      | none => none
      | some (kcs, r1) =>
        match r1.dropWhile jsonWSb with
        | ':' :: r2 =>
          match jparseVal fuel (r2.dropWhile jsonWSb) with
          | none => none
          | some (v, r3) =>
            match r3.dropWhile jsonWSb with
            | ',' :: r4 => jparseMembers fuel (r4.dropWhile jsonWSb) ((String.mk kcs, v) :: acc)
            | '\x7d' :: r4 =>
              some (Json.obj (((String.mk kcs, v) :: acc).reverse.foldl
                (fun m kv => insertKV m kv.1 kv.2) []), r4)
            | _ => none
        | _ => none
    | _ => none

end

/-- `json.loads`: `none` models a raised `json.JSONDecodeError`. -/
def json_loads (s : String) : Option Json :=
  let t := s.data.dropWhile jsonWSb
  match jparseVal (t.length + 1) t with
  | some (j, r) => if (r.dropWhile jsonWSb).isEmpty then some j else none
  | none => none

/-! ## `extract_data_from_image` (src/main.py:98-126) -/

/-- Python `str.replace(pat, rep)` on character lists: replaces every
occurrence, scanning left to right, non-overlapping.  The fuel (the input
length at the top call) only bounds the recursion: every step consumes at
least one character.  (For `pat = []` Python would interleave `rep` between
characters; both call sites below pass a non-empty `pat`, and this model
then returns the input unchanged.) -/
def replaceAllGo (pat rep : List Char) : Nat → List Char → List Char
  | 0, s => s
  | _ + 1, [] => []
  | fuel + 1, c :: t =>
    if pat ≠ [] ∧ pat.isPrefixOf (c :: t) then
      rep ++ replaceAllGo pat rep fuel ((c :: t).drop pat.length)
    else
      c :: replaceAllGo pat rep fuel t

/-- Python `str.replace` on strings. -/
def pyReplace (s pat rep : String) : String :=
  String.mk (replaceAllGo pat.data rep.data s.data.length s.data)

/-- `response.text.strip().replace("```json", "").replace("```", "")`
(src/main.py:118). -/
def cleanedResponse (raw : String) : String :=
  pyReplace (pyReplace (pyStrip raw) "```json" "") "```" ""

/-- `extract_data_from_image` (src/main.py:98-126), as a function of the
outcome of the external model call: `.ok text` is `response.text`, while
`.error e` models any exception raised before `json.loads` (image decode,
network, blocked response, ...).  The two `except` clauses return the two
fixed error records. -/
def extract_data_from_image (resp : Except String String) : Json :=
  match resp with
  | .error _ => Json.obj [("error", Json.str "An internal error occurred during processing.")]
  | .ok text =>
    match json_loads (cleanedResponse text) with
    | some j => j
    | none => Json.obj [("error", Json.str "Failed to parse model response as JSON.")]

/-! ## The request handler `extract_medicine_data` (src/main.py:161-192) -/

/-- Lookup in a Python dict association list. -/
def dictFind (kvs : List (String × Json)) (k : String) : Option Json :=
  (kvs.find? fun p => p.1 == k).map Prod.snd

/-- Key lookup on a JSON value that is a dict (else `none`). -/
def jGet (j : Json) (k : String) : Option Json :=
  match j with
  | .obj kvs => dictFind kvs k
  | _ => none

/-- Python `k in x` for a string `k` (src/main.py:172): key test on a dict,
membership on a list, substring test on a string, `TypeError` otherwise. -/
def pyIn (k : String) : Json → Except String Bool
  | .obj kvs => .ok (kvs.any fun p => p.1 == k)
  | .arr xs => .ok (xs.any fun x => match x with | Json.str s => s == k | _ => false)
  | .str s => .ok (hasSubCS k.data s.data)
  | _ => .error "TypeError: argument of type X is not iterable"

/-- Python `x[k]` for a string `k` (src/main.py:173). -/
def pySubscript (j : Json) (k : String) : Except String Json :=
  match j with
  | .obj kvs =>
    match dictFind kvs k with
    | some v => .ok v
    | none => .error "KeyError"
  | .str _ => .error "TypeError: string indices must be integers"
  | .arr _ => .error "TypeError: list indices must be integers"
  | _ => .error "TypeError: object is not subscriptable"

/-- Marshal the `medicine_name` value for `find_medicine_details`.
The data model allows `string | null` (or an absent key); any other value
is outside the modelled fragment (in Python a truthy non-string would
raise a `TypeError` inside the pandas call) and maps to an error. -/
def nameFragment : Option Json → Except String (Option String)
  | none => .ok none
  | some Json.null => .ok none
  | some (Json.str s) => .ok (some s)
  | some _ => .error "TypeError (medicine_name outside the string-or-null fragment)"

/-- Marshal one list of salts: every element must be a string. -/
def strListFragment : List Json → Except String (List String)
  | [] => .ok []
  | Json.str s :: t =>
    match strListFragment t with
    | .ok l => .ok (s :: l)
    | .error e => .error e
  | _ :: _ => .error "TypeError (active_salts element outside the string fragment)"

/-- Marshal the `active_salts` value for `find_medicine_details`. -/
def saltsFragment : Json → Except String (Option (List String))
  | Json.null => .ok none
  | Json.arr xs =>
    match strListFragment xs with
    | .ok l => .ok (some l)
    | .error e => .error e
  | _ => .error "TypeError (active_salts outside the list-of-strings fragment)"

/-- Responses the handler can produce: the success envelope
`{"message": ..., "data": ...}` or a raised `HTTPException`. -/
inductive HandlerResponse where
  | success (message : String) (data : Json)
  | httpError (status : Nat) (detail : Json)

/-- The sentinel stored when the lookup found nothing (src/main.py:186-187). -/
def sentinel : String := "No information found in our database."

/-- `Option String` cell to JSON (a missing cell surfaces as `null`). -/
def optStrJson : Option String → Json
  | none => Json.null
  | some s => Json.str s

/-- `extracted_data.update(additional_details)` (src/main.py:184): the
match dict has exactly the keys `uses` and `side_effects`, inserted in that
order. -/
def mergeDetails (kvs : List (String × Json)) (d : LookupDetails) :
    List (String × Json) :=
  insertKV (insertKV kvs "uses" (optStrJson d.uses)) "side_effects" (optStrJson d.side_effects)

/-- The merge step (src/main.py:183-187). -/
def mergeOut (kvs : List (String × Json)) (od : Option LookupDetails) :
    List (String × Json) :=
  match od with
  | some d => mergeDetails kvs d
  | none =>
    insertKV (insertKV kvs "uses" (Json.str sentinel)) "side_effects" (Json.str sentinel)

/-- The body of the `try:` block (src/main.py:168-189).  Returns whether
`find_medicine_details` was invoked, and either the response or a raised
exception (`.error`). -/
def handlerBody (df : Option (List MedicineRow)) (extracted : Json) :
    Bool × Except String HandlerResponse :=
  match pyIn "error" extracted with
  | .error e => (false, .error e)
  | .ok true =>
    match pySubscript extracted "error" with
    | .error e => (false, .error e)
    | .ok v => (false, .ok (HandlerResponse.httpError 500 v))
  | .ok false =>
    match extracted with
    | Json.obj kvs =>
      match nameFragment (dictFind kvs "medicine_name") with
      | .error e => (false, .error e)
      | .ok name =>
        match saltsFragment ((dictFind kvs "active_salts").getD (Json.arr [])) with
        | .error e => (false, .error e)
        | .ok salts =>
          match find_medicine_details df name salts with
          | .error e => (true, .error e)
          | .ok od =>
            (true, .ok (HandlerResponse.success "Data extracted successfully"
              (Json.obj (mergeOut kvs od))))
    | _ => (false, .error "AttributeError: object has no attribute get")

/-- Observable events of one request, for the temp-file lifecycle. -/
inductive Ev where
  | createTmp
  | extractCall
  | lookupCall
  | unlink
deriving DecidableEq

/-- The outcome of one request: its event trace and either the response or
the exception that escaped the `try:` block (after `finally` ran). -/
structure HandlerOut where
  events : List Ev
  outcome : Except String HandlerResponse

/-- `extract_medicine_data` (src/main.py:161-192), as a function of the
loaded dataset and the outcome of the external model call.  The upload is
persisted to a temp file before the `try:` block; the `finally:` clause
unlinks it on every exit path of the block. -/
def extract_medicine_data (df : Option (List MedicineRow))
    (modelResp : Except String String) : HandlerOut :=
  let b := handlerBody df (extract_data_from_image modelResp)
  { events := [Ev.createTmp, Ev.extractCall] ++ (if b.1 then [Ev.lookupCall] else []) ++ [Ev.unlink],
    outcome := b.2 }

/-! ## Lemmas: literal patterns search as substrings -/

theorem plain_char_facts (c : Char) (h : isPlainChar c = true) :
    c ≠ '\\' ∧ c ≠ '[' ∧ c ≠ '(' ∧ c ≠ ')' ∧ c ≠ '|' ∧ ¬(c = '*' ∨ c = '+' ∨ c = '?') ∧
    c ≠ '\x7b' ∧ c ≠ '.' ∧ ¬(c = '^' ∨ c = '$') := by
  have hm : c ∉ reSpecials := by
    have h' : (!(reSpecials.contains c)) = true := h
    simpa using h'
  simp only [reSpecials, List.mem_cons, List.not_mem_nil, or_false] at hm
  push_neg at hm
  obtain ⟨hdot, hhat, hdol, hstar, hplus, hq, hob, hcb, hosq, hcsq, hbsl, hbar, hop, hcp⟩ := hm
  refine ⟨hbsl, hosq, hop, hcp, hbar, ?_, hob, hdot, ?_⟩
  · rintro (h | h | h) <;> simp_all
  · rintro (h | h) <;> simp_all

theorem matchesHere_void : ∀ s, matchesHere Re.void s = false
  | [] => rfl
  | _ :: t => by
    simp only [matchesHere, Re.deriv, Re.nullable, Bool.false_or]
    exact matchesHere_void t

theorem litSeq_cons (c : Char) (q : List Char) :
    litSeq (c :: q) = Re.seq (Re.lit c) (litSeq q) := rfl

theorem nullable_litSeq : ∀ q : List Char, (litSeq q).nullable = q.isEmpty
  | [] => rfl
  | _ :: _ => rfl

theorem deriv_litSeq_cons (c : Char) (q : List Char) (a : Char) :
    (litSeq (c :: q)).deriv a = if c.toLower == a.toLower then litSeq q else Re.void := by
  show Re.dseq (if c.toLower == a.toLower then Re.eps else Re.void) (litSeq q) =
    if c.toLower == a.toLower then litSeq q else Re.void
  by_cases h : c.toLower == a.toLower
  · rw [if_pos h, if_pos h]
    rfl
  · rw [if_neg h, if_neg h]
    rfl

theorem matchesHere_litSeq : ∀ (q s : List Char), matchesHere (litSeq q) s = prefixCI q s
  | [], [] => rfl
  | [], _ :: _ => rfl
  | _ :: _, [] => rfl
  | c :: q, a :: s => by
    have hn : (litSeq (c :: q)).nullable = false := rfl
    simp only [matchesHere, deriv_litSeq_cons, hn, Bool.false_or, prefixCI]
    by_cases h : c.toLower == a.toLower
    · rw [if_pos h, matchesHere_litSeq q s, h, Bool.true_and]
    · rw [if_neg h, matchesHere_void]
      simp only [Bool.not_eq_true] at h
      rw [h, Bool.false_and]

theorem reSearch_litSeq : ∀ (q s : List Char), reSearch (litSeq q) s = hasSubstrCI q s
  | q, [] => by
    simp only [reSearch, hasSubstrCI, nullable_litSeq]
    cases q <;> rfl
  | q, a :: s => by
    simp only [reSearch, hasSubstrCI, matchesHere_litSeq]
    rw [reSearch_litSeq q s]

theorem goParse_cons_eq (fuel : Nat) (st : List PFrame) (c : Char) (rest : List Char) :
    goParse (fuel + 1) st (c :: rest) =
      match goStep c rest st with
      | .error e => .error e
      | .ok (st2, s2) => goParse fuel st2 s2 := rfl

theorem goStep_plain (c : Char) (rest : List Char) (st : List PFrame)
    (hc : isPlainChar c = true) :
    goStep c rest st = .ok (pushAtom st (Re.lit c) false, rest) := by
  obtain ⟨h1, h2, h3, h4, h5, h6, h7, h8, h9⟩ := plain_char_facts c hc
  unfold goStep
  rw [if_neg h1, if_neg h2, if_neg h3, if_neg h4, if_neg h5, if_neg h6, if_neg h7,
    if_neg h8, if_neg h9]

theorem goParse_plain : ∀ (s : List Char) (acc : List (Re × Bool)),
    s.all isPlainChar = true →
    goParse (s.length + 1) [{ alts := [], acc := acc }] s =
      .ok (seqList (acc.reverse.map Prod.fst ++ s.map Re.lit))
  | [], acc, _ => by
    show Except.ok (frameRe { alts := [], acc := acc }) = _
    simp [frameRe, altList, accRe]
  | c :: s, acc, h => by
    have hc : isPlainChar c = true := by
      simp only [List.all_cons, Bool.and_eq_true] at h
      exact h.1
    have hs : s.all isPlainChar = true := by
      simp only [List.all_cons, Bool.and_eq_true] at h
      exact h.2
    have step : goParse ((c :: s).length + 1) [{ alts := [], acc := acc }] (c :: s) =
        goParse (s.length + 1) [{ alts := [], acc := (Re.lit c, false) :: acc }] s := by
      rw [show (c :: s).length + 1 = (s.length + 1) + 1 from rfl, goParse_cons_eq,
        goStep_plain c s _ hc]
      rfl
    rw [step, goParse_plain s ((Re.lit c, false) :: acc) hs]
    simp [List.append_assoc]

theorem compilePy_plain (p : String) (hp : isPlainPat p = true) :
    compilePy p = .ok (litSeq p.data) := by
  have := goParse_plain p.data [] hp
  simpa [compilePy, litSeq] using this

/-! ## Lemmas: the two lookup tiers under plain patterns -/

theorem rowMatch_litSeq (p : String) (field : Option String) :
    rowMatch (litSeq p.data) field = fieldHasCI p field := by
  cases field with
  | none => rfl
  | some s => simp [rowMatch, fieldHasCI, substrCI, reSearch_litSeq]

theorem tier1_plain (rows : List MedicineRow) (nm : String)
    (hp : isPlainPat nm = true) (hne : nm ≠ "") :
    tier1 rows (some nm) = .ok ((nameFirstMatch rows nm).map detailsOf) := by
  have hf : (fun r => rowMatch (litSeq nm.data) r.medicineName) =
      (fun r : MedicineRow => fieldHasCI nm r.medicineName) := by
    funext r
    exact rowMatch_litSeq nm r.medicineName
  have h0 : tier1 rows (some nm) = (if nm = "" then Except.ok none
      else match compilePy nm with
        | Except.error e => Except.error e
        | Except.ok re =>
          Except.ok (((rows.filter fun r => rowMatch re r.medicineName).head?).map detailsOf)) := rfl
  rw [h0, if_neg hne, compilePy_plain nm hp]
  show Except.ok (((rows.filter fun r => rowMatch (litSeq nm.data) r.medicineName).head?).map detailsOf)
      = Except.ok ((nameFirstMatch rows nm).map detailsOf)
  rw [hf]
  rfl

theorem saltFirstMatch_some {rows : List MedicineRow} {salt : String} {r0 : MedicineRow}
    (h : saltFirstMatch rows salt = some r0) :
    cleanSalt salt ≠ "" ∧
      (rows.filter fun r => fieldHasCI (cleanSalt salt) r.composition).head? = some r0 := by
  by_cases hc : cleanSalt salt = ""
  · simp [saltFirstMatch, hc] at h
  · refine ⟨hc, ?_⟩
    simpa [saltFirstMatch, hc] using h

theorem tier2_plain_skip (rows : List MedicineRow) (salt : String) (rest : List String)
    (hp : isPlainPat (cleanSalt salt) = true)
    (hnone : saltFirstMatch rows salt = none) :
    tier2 rows (salt :: rest) = tier2 rows rest := by
  by_cases hc : cleanSalt salt = ""
  · simp [tier2, hc]
  · have hf : (fun r => rowMatch (litSeq (cleanSalt salt).data) r.composition) =
        (fun r : MedicineRow => fieldHasCI (cleanSalt salt) r.composition) := by
      funext r
      exact rowMatch_litSeq _ r.composition
    have hh : (rows.filter fun r => fieldHasCI (cleanSalt salt) r.composition).head? = none := by
      simpa [saltFirstMatch, hc] using hnone
    have h0 : tier2 rows (salt :: rest) = (if cleanSalt salt = "" then tier2 rows rest
        else match compilePy (cleanSalt salt) with
          | Except.error e => Except.error e
          | Except.ok re =>
            match (rows.filter fun r => rowMatch re r.composition).head? with
            | some r => Except.ok (some (detailsOf r))
            | none => tier2 rows rest) := rfl
    rw [h0, if_neg hc, compilePy_plain _ hp]
    show (match (rows.filter fun r => rowMatch (litSeq (cleanSalt salt).data) r.composition).head? with
          | some r => Except.ok (some (detailsOf r))
          | none => tier2 rows rest) = tier2 rows rest
    rw [hf, hh]

theorem tier2_plain_hit (rows : List MedicineRow) (salt : String) (rest : List String)
    (hp : isPlainPat (cleanSalt salt) = true) (r0 : MedicineRow)
    (hsome : saltFirstMatch rows salt = some r0) :
    tier2 rows (salt :: rest) = .ok (some (detailsOf r0)) := by
  obtain ⟨hc, hh⟩ := saltFirstMatch_some hsome
  have hf : (fun r => rowMatch (litSeq (cleanSalt salt).data) r.composition) =
      (fun r : MedicineRow => fieldHasCI (cleanSalt salt) r.composition) := by
    funext r
    exact rowMatch_litSeq _ r.composition
  have h0 : tier2 rows (salt :: rest) = (if cleanSalt salt = "" then tier2 rows rest
      else match compilePy (cleanSalt salt) with
        | Except.error e => Except.error e
        | Except.ok re =>
          match (rows.filter fun r => rowMatch re r.composition).head? with
          | some r => Except.ok (some (detailsOf r))
          | none => tier2 rows rest) := rfl
  rw [h0, if_neg hc, compilePy_plain _ hp]
  show (match (rows.filter fun r => rowMatch (litSeq (cleanSalt salt).data) r.composition).head? with
        | some r => Except.ok (some (detailsOf r))
        | none => tier2 rows rest) = Except.ok (some (detailsOf r0))
  rw [hf, hh]

theorem rows_nonempty_of_filter_head {p : MedicineRow → Bool} {rows : List MedicineRow}
    {r0 : MedicineRow} (h : (rows.filter p).head? = some r0) : rows.isEmpty = false := by
  cases rows with
  | nil => simp [List.filter] at h
  | cons a t => rfl

theorem find_some_unfold (rows : List MedicineRow) (name : Option String)
    (salts : Option (List String)) (hne : rows.isEmpty = false) :
    find_medicine_details (some rows) name salts =
      match tier1 rows name with
      | .error e => .error e
      | .ok (some d) => .ok (some d)
      | .ok none =>
        match salts with
        | none => .ok none
        | some l => tier2 rows l := by
  have h0 : find_medicine_details (some rows) name salts =
      (if rows.isEmpty = true then Except.ok none
       else match tier1 rows name with
         | Except.error e => Except.error e
         | Except.ok (some d) => Except.ok (some d)
         | Except.ok none =>
           match salts with
           | none => Except.ok none
           | some l => tier2 rows l) := rfl
  rw [h0, hne]
  simp

theorem tier2_prefix_skip (rows : List MedicineRow) :
    ∀ (pre rest : List String),
    (∀ s ∈ pre, isPlainPat (cleanSalt s) = true) →
    (∀ s ∈ pre, saltFirstMatch rows s = none) →
    tier2 rows (pre ++ rest) = tier2 rows rest
  | [], _, _, _ => rfl
  | p :: ps, rest, hplain, hpre => by
    rw [List.cons_append,
      tier2_plain_skip rows p (ps ++ rest) (hplain p (by simp)) (hpre p (by simp))]
    exact tier2_prefix_skip rows ps rest (fun s hs => hplain s (by simp [hs]))
      (fun s hs => hpre s (by simp [hs]))

theorem tier2_plain_none_iff (rows : List MedicineRow) :
    ∀ l : List String, (∀ s ∈ l, isPlainPat (cleanSalt s) = true) →
    (tier2 rows l = .ok none ↔ ∀ s ∈ l, saltFirstMatch rows s = none)
  | [], _ => by simp [tier2]
  | salt :: rest, hp => by
    have hps : ∀ s ∈ rest, isPlainPat (cleanSalt s) = true := fun s hs => hp s (by simp [hs])
    have ih := tier2_plain_none_iff rows rest hps
    cases hsf : saltFirstMatch rows salt with
    | none =>
      rw [tier2_plain_skip rows salt rest (hp salt (by simp)) hsf]
      constructor
      · intro h s hs
        rcases List.mem_cons.mp hs with h1 | h1
        · rw [h1]
          exact hsf
        · exact (ih.mp h) s h1
      · intro h
        exact ih.mpr fun s hs => h s (by simp [hs])
    | some r0 =>
      rw [tier2_plain_hit rows salt rest (hp salt (by simp)) r0 hsf]
      constructor
      · intro h
        simp at h
      · intro h
        have hx := h salt (by simp)
        rw [hsf] at hx
        cases hx

/-! ## Claims C1-C4: the lookup -/

/-- C1 counterexample: the name "(" is a case-insensitive substring of the
single row's name field "x(y", so the claim demands that the lookup return
that row's uses/side_effects; instead the lookup raises a regex compile
error, because pandas `str.contains` (default `regex=True`) interprets the
query as a regular expression. -/
theorem c1_counterexample :
    substrCI "(" "x(y" = true ∧
    find_medicine_details
      (some [{ medicineName := some "x(y", composition := none,
               uses := some "u", sideEffects := some "s" }])
      (some "(") none = .error "missing ), unterminated subpattern" := ⟨rfl, rfl⟩

/-- C1 (amended): for every dataset and non-empty `medicine_name` that
contains no regex metacharacter and matches at least one row's name field
case-insensitively as a substring, the lookup returns the uses/side_effects
of the first such row in dataset order, regardless of `active_salts`
(Tier 2 is never reached). -/
theorem c1_first_name_match (rows : List MedicineRow) (nm : String) (r0 : MedicineRow)
    (hplain : isPlainPat nm = true) (hne : nm ≠ "")
    (hmatch : nameFirstMatch rows nm = some r0) :
    ∀ active_salts : Option (List String),
      find_medicine_details (some rows) (some nm) active_salts = .ok (some (detailsOf r0)) := by
  intro salts
  have hrows : rows.isEmpty = false :=
    rows_nonempty_of_filter_head (p := fun r => fieldHasCI nm r.medicineName) hmatch
  rw [find_some_unfold rows (some nm) salts hrows, tier1_plain rows nm hplain hne, hmatch]
  rfl

/-- C1 witness: the amended theorem at a concrete dataset and inputs. -/
theorem c1_first_name_match_witness :
    find_medicine_details
      (some [{ medicineName := some "Paracetamol 500", composition := some "Paracetamol",
               uses := some "Pain relief", sideEffects := some "Nausea" }])
      (some "paracetamol") (some ["ignored salt"]) =
      .ok (some ⟨some "Pain relief", some "Nausea"⟩) :=
  c1_first_name_match
    [{ medicineName := some "Paracetamol 500", composition := some "Paracetamol",
       uses := some "Pain relief", sideEffects := some "Nausea" }]
    "paracetamol"
    { medicineName := some "Paracetamol 500", composition := some "Paracetamol",
      uses := some "Pain relief", sideEffects := some "Nausea" }
    rfl (by decide) rfl (some ["ignored salt"])

/-- C2 counterexample: Tier 1 is empty (no name), the cleaned salt ")" is a
case-insensitive substring of the row's composition "a)b", so the claim
demands that row's details; instead the lookup raises a regex compile
error on the salt. -/
theorem c2_counterexample :
    cleanSalt ")" = ")" ∧
    substrCI ")" "a)b" = true ∧
    find_medicine_details
      (some [{ medicineName := none, composition := some "a)b",
               uses := some "u", sideEffects := some "s" }])
      none (some [")"]) = .error "unbalanced parenthesis" := ⟨rfl, rfl, rfl⟩

/-- C2 (amended): when Tier 1 finds nothing, the lookup walks
`active_salts` in order; salts are normalized by truncating at the first
`(` and trimming whitespace, empty normalizations are skipped, and -
provided the normalized salts contain no regex metacharacter - the first
salt whose normalization occurs case-insensitively in some row's
composition field yields the first matching row (dataset order), without
examining further salts. -/
theorem c2_first_salt_match (rows : List MedicineRow) (medicine_name : Option String)
    (pre : List String) (salt : String) (post : List String) (r0 : MedicineRow)
    (htier1 : tier1 rows medicine_name = .ok none)
    (hplain : ∀ s ∈ pre, isPlainPat (cleanSalt s) = true)
    (hplainsalt : isPlainPat (cleanSalt salt) = true)
    (hpre : ∀ s ∈ pre, saltFirstMatch rows s = none)
    (hsalt : saltFirstMatch rows salt = some r0) :
    find_medicine_details (some rows) medicine_name (some (pre ++ salt :: post)) =
      .ok (some (detailsOf r0)) := by
  have hrows : rows.isEmpty = false :=
    rows_nonempty_of_filter_head (saltFirstMatch_some hsalt).2
  rw [find_some_unfold rows medicine_name (some (pre ++ salt :: post)) hrows, htier1]
  show tier2 rows (pre ++ salt :: post) = Except.ok (some (detailsOf r0))
  rw [tier2_prefix_skip rows pre (salt :: post) hplain hpre]
  exact tier2_plain_hit rows salt post hplainsalt r0 hsalt

/-- C2 witness: the amended theorem at a concrete dataset and inputs: the
first salt finds nothing, the second (with its "(200mg)" annotation
stripped) matches the row's composition, the third is never needed. -/
theorem c2_first_salt_match_witness :
    find_medicine_details
      (some [{ medicineName := some "Advil", composition := some "Ibuprofen 200mg",
               uses := some "u2", sideEffects := some "s2" }])
      none (some ["zzz", "Ibuprofen (200mg)", "later"]) =
      .ok (some ⟨some "u2", some "s2"⟩) :=
  c2_first_salt_match
    [{ medicineName := some "Advil", composition := some "Ibuprofen 200mg",
       uses := some "u2", sideEffects := some "s2" }]
    none ["zzz"] "Ibuprofen (200mg)" ["later"]
    { medicineName := some "Advil", composition := some "Ibuprofen 200mg",
      uses := some "u2", sideEffects := some "s2" }
    rfl (by decide) rfl (by decide) rfl

/-- C3 (code-bug evidence): the matching predicate is not plain substring
containment and the lookup can raise.  The query "(" raises a regex
compile error, and the query "a+" matches a row whose name does not
contain the literal text "a+" (the regex engine reads it as "one or more
a"). -/
theorem c3_regex_bug_evidence :
    find_medicine_details
      (some [{ medicineName := some "x(y", composition := none,
               uses := some "u", sideEffects := some "s" }])
      (some "(") none = .error "missing ), unterminated subpattern" ∧
    find_medicine_details
      (some [{ medicineName := some "xaab", composition := none,
               uses := some "u", sideEffects := some "s" }])
      (some "a+") none = .ok (some ⟨some "u", some "s"⟩) ∧
    substrCI "a+" "xaab" = false := ⟨rfl, rfl, rfl⟩

/-- C4 counterexample: with a one-row dataset whose name field is "xy",
the name "(" matches nothing as a substring and there are no salts, so the
claim demands the no-match sentinel; the code instead raises a regex
compile error. -/
theorem c4_counterexample :
    nameFirstMatch [{ medicineName := some "xy", composition := some "c",
                      uses := some "u", sideEffects := some "s" }] "(" = none ∧
    find_medicine_details
      (some [{ medicineName := some "xy", composition := some "c",
               uses := some "u", sideEffects := some "s" }])
      (some "(") none = .error "missing ), unterminated subpattern" := ⟨rfl, rfl⟩

/-- C4 (amended): provided the name and the cleaned salts contain no regex
metacharacter, the lookup returns the no-match value `.ok none` exactly
when the dataset is missing/empty or neither tier matches; and the
no-match value is distinguishable from a match whose uses/side_effects are
themselves null. -/
theorem c4_sentinel_iff_no_match (df : Option (List MedicineRow))
    (medicine_name : Option String) (active_salts : Option (List String))
    (hnm : ∀ nm, medicine_name = some nm → isPlainPat nm = true)
    (hsalts : ∀ l, active_salts = some l → ∀ s ∈ l, isPlainPat (cleanSalt s) = true) :
    (find_medicine_details df medicine_name active_salts = .ok none ↔
      match df with
      | none => True
      | some rows => rows = [] ∨
          ((∀ nm, medicine_name = some nm → nm ≠ "" → nameFirstMatch rows nm = none) ∧
           (∀ l, active_salts = some l → ∀ s ∈ l, saltFirstMatch rows s = none))) ∧
    (Except.ok (some (⟨none, none⟩ : LookupDetails)) : Except String (Option LookupDetails))
      ≠ Except.ok none := by
  refine ⟨?_, by simp⟩
  cases df with
  | none => simp [find_medicine_details]
  | some rows =>
    cases rows with
    | nil => simp [find_medicine_details]
    | cons a t =>
      rw [find_some_unfold (a :: t) medicine_name active_salts rfl]
      cases hmn : medicine_name with
      | none =>
        show (match active_salts with
              | none => Except.ok none
              | some l => tier2 (a :: t) l) = Except.ok none ↔ _
        cases hsa : active_salts with
        | none => simp
        | some l =>
          rw [tier2_plain_none_iff (a :: t) l (hsalts l hsa)]
          simp
      | some nm =>
        have hplain := hnm nm hmn
        by_cases hne : nm = ""
        · subst hne
          show (match active_salts with
                | none => Except.ok none
                | some l => tier2 (a :: t) l) = Except.ok none ↔ _
          cases hsa : active_salts with
          | none => simp
          | some l =>
            rw [tier2_plain_none_iff (a :: t) l (hsalts l hsa)]
            simp
        · rw [tier1_plain (a :: t) nm hplain hne]
          cases hnf : nameFirstMatch (a :: t) nm with
          | some r =>
            show Except.ok (some (detailsOf r)) = Except.ok none ↔ _
            constructor
            · intro h
              simp at h
            · rintro (h | ⟨h1, h2⟩)
              · simp at h
              · have hx := h1 nm rfl hne
                rw [hnf] at hx
                cases hx
          | none =>
            show (match active_salts with
                  | none => Except.ok none
                  | some l => tier2 (a :: t) l) = Except.ok none ↔ _
            cases hsa : active_salts with
            | none => simp [hnf]
            | some l =>
              rw [tier2_plain_none_iff (a :: t) l (hsalts l hsa)]
              simp [hnf]

/-- C4 witness: the amended theorem at concrete inputs (missing dataset,
no name, no salts: the lookup reports no match). -/
theorem c4_sentinel_iff_no_match_witness :
    ((find_medicine_details none none none = .ok none ↔ True) ∧
      (Except.ok (some (⟨none, none⟩ : LookupDetails)) : Except String (Option LookupDetails))
        ≠ Except.ok none) :=
  c4_sentinel_iff_no_match none none none
    (fun _ h => Option.noConfusion h) (fun _ h => Option.noConfusion h)

/-! ## Claims C5-C6: the extractor -/

set_option maxRecDepth 8000 in
/-- C5: the response cleanup strips outer whitespace, removes the literal
markers "```json" and "```", and parses the remainder as JSON; on the
spec's fenced Paracetamol response it yields exactly the expected record
(fences stripped before the parse). -/
theorem c5_extractor_fence_example :
    cleanedResponse "```json\n\x7b\"medicine_name\":\"Paracetamol\",\"manufacturer\":null,\"active_salts\":[\"Paracetamol (500mg)\"],\"expiry_date\":null,\"batch_number\":null\x7d\n```"
      = "\n\x7b\"medicine_name\":\"Paracetamol\",\"manufacturer\":null,\"active_salts\":[\"Paracetamol (500mg)\"],\"expiry_date\":null,\"batch_number\":null\x7d\n" ∧
    extract_data_from_image (Except.ok "```json\n\x7b\"medicine_name\":\"Paracetamol\",\"manufacturer\":null,\"active_salts\":[\"Paracetamol (500mg)\"],\"expiry_date\":null,\"batch_number\":null\x7d\n```")
      = Json.obj [("medicine_name", Json.str "Paracetamol"), ("manufacturer", Json.null),
          ("active_salts", Json.arr [Json.str "Paracetamol (500mg)"]),
          ("expiry_date", Json.null), ("batch_number", Json.null)] := ⟨rfl, rfl⟩

/-- C6: a model response whose cleaned text is not valid JSON yields the
record whose only field is `error` with the fixed parse message; any
failure before parsing (external call, image decode) yields the same
record shape with the generic message; in both cases a value is returned,
no exception propagates. -/
theorem c6_error_records :
    (∀ raw : String, json_loads (cleanedResponse raw) = none →
      extract_data_from_image (Except.ok raw) =
        Json.obj [("error", Json.str "Failed to parse model response as JSON.")]) ∧
    (∀ e : String, extract_data_from_image (Except.error e) =
        Json.obj [("error", Json.str "An internal error occurred during processing.")]) := by
  constructor
  · intro raw h
    show (match json_loads (cleanedResponse raw) with
          | some j => j
          | none => Json.obj [("error", Json.str "Failed to parse model response as JSON.")]) =
        Json.obj [("error", Json.str "Failed to parse model response as JSON.")]
    rw [h]
  · intro e
    rfl

/-- C6 witness: the theorem at a prose response and at a failed call. -/
theorem c6_error_records_witness :
    extract_data_from_image (Except.ok "plain prose, not JSON") =
      Json.obj [("error", Json.str "Failed to parse model response as JSON.")] ∧
    extract_data_from_image (Except.error "network down") =
      Json.obj [("error", Json.str "An internal error occurred during processing.")] :=
  ⟨c6_error_records.1 "plain prose, not JSON" rfl, c6_error_records.2 "network down"⟩

/-! ## Lemmas: Python dict operations and the merge step -/

theorem dictFind_insertKV_self (kvs : List (String × Json)) (k : String) (v : Json) :
    dictFind (insertKV kvs k v) k = some v := by
  induction kvs with
  | nil => simp [insertKV, dictFind, List.find?]
  | cons p t ih =>
    by_cases h : p.1 = k
    · simp [insertKV, dictFind, List.find?, h]
    · simp only [insertKV, if_neg h]
      have hne : (p.1 == k) = false := by
        simp [h]
      simp only [dictFind, List.find?, hne]
      exact ih

theorem dictFind_insertKV_other (kvs : List (String × Json)) (k : String) (v : Json)
    (k' : String) (h : k' ≠ k) :
    dictFind (insertKV kvs k v) k' = dictFind kvs k' := by
  induction kvs with
  | nil =>
    have hne : (k == k') = false := by
      simp
      exact fun hx => h hx.symm
    simp [insertKV, dictFind, List.find?, hne]
  | cons p t ih =>
    by_cases hp : p.1 = k
    · have hne : (k == k') = false := by
        simp
        exact fun hx => h hx.symm
      have hpne : (p.1 == k') = false := by
        simp [hp]
        exact fun hx => h hx.symm
      simp [insertKV, dictFind, List.find?, hp, hne, hpne]
    · simp only [insertKV, if_neg hp]
      by_cases hq : p.1 = k'
      · simp [dictFind, List.find?, hq]
      · have hqne : (p.1 == k') = false := by
          simp [hq]
        simp only [dictFind, List.find?, hqne]
        exact ih

theorem any_of_dictFind_some {kvs : List (String × Json)} {k : String} {v : Json}
    (h : dictFind kvs k = some v) : (kvs.any fun p => p.1 == k) = true := by
  unfold dictFind at h
  cases hf : kvs.find? fun p => p.1 == k with
  | none =>
    rw [hf] at h
    cases h
  | some pr =>
    refine List.any_eq_true.mpr ⟨pr, List.mem_of_find?_eq_some hf, ?_⟩
    have hp := List.find?_some hf
    simpa using hp

theorem any_of_dictFind_none {kvs : List (String × Json)} {k : String}
    (h : dictFind kvs k = none) : (kvs.any fun p => p.1 == k) = false := by
  unfold dictFind at h
  cases hf : kvs.find? fun p => p.1 == k with
  | some pr =>
    rw [hf] at h
    cases h
  | none =>
    rw [List.find?_eq_none] at hf
    rw [List.any_eq_false]
    intro x hx
    exact hf x hx

theorem dictFind_none_of_any_false {kvs : List (String × Json)} {k : String}
    (h : (kvs.any fun p => p.1 == k) = false) : dictFind kvs k = none := by
  unfold dictFind
  cases hf : kvs.find? fun p => p.1 == k with
  | none => rfl
  | some pr =>
    rw [List.any_eq_false] at h
    have hp := List.find?_some hf
    exact absurd hp (by simpa using h pr (List.mem_of_find?_eq_some hf))

theorem mergeOut_uses (kvs : List (String × Json)) (od : Option LookupDetails) :
    dictFind (mergeOut kvs od) "uses" =
      some (match od with | some d => optStrJson d.uses | none => Json.str sentinel) := by
  cases od with
  | some d =>
    show dictFind (insertKV (insertKV kvs "uses" (optStrJson d.uses)) "side_effects"
      (optStrJson d.side_effects)) "uses" = _
    rw [dictFind_insertKV_other _ _ _ _ (by decide), dictFind_insertKV_self]
  | none =>
    show dictFind (insertKV (insertKV kvs "uses" (Json.str sentinel)) "side_effects"
      (Json.str sentinel)) "uses" = _
    rw [dictFind_insertKV_other _ _ _ _ (by decide), dictFind_insertKV_self]

theorem mergeOut_side_effects (kvs : List (String × Json)) (od : Option LookupDetails) :
    dictFind (mergeOut kvs od) "side_effects" =
      some (match od with | some d => optStrJson d.side_effects | none => Json.str sentinel) := by
  cases od with
  | some d => exact dictFind_insertKV_self _ _ _
  | none => exact dictFind_insertKV_self _ _ _

theorem mergeOut_other (kvs : List (String × Json)) (od : Option LookupDetails)
    (k : String) (h1 : k ≠ "uses") (h2 : k ≠ "side_effects") :
    dictFind (mergeOut kvs od) k = dictFind kvs k := by
  cases od with
  | some d =>
    show dictFind (insertKV (insertKV kvs "uses" (optStrJson d.uses)) "side_effects"
      (optStrJson d.side_effects)) k = _
    rw [dictFind_insertKV_other _ _ _ _ h2, dictFind_insertKV_other _ _ _ _ h1]
  | none =>
    show dictFind (insertKV (insertKV kvs "uses" (Json.str sentinel)) "side_effects"
      (Json.str sentinel)) k = _
    rw [dictFind_insertKV_other _ _ _ _ h2, dictFind_insertKV_other _ _ _ _ h1]

/-! ## Lemmas: the handler body -/

theorem handlerBody_error_key {df : Option (List MedicineRow)}
    {kvs : List (String × Json)} {v : Json} (hdf : dictFind kvs "error" = some v) :
    handlerBody df (Json.obj kvs) = (false, .ok (HandlerResponse.httpError 500 v)) := by
  have hany := any_of_dictFind_some hdf
  simp [handlerBody, pyIn, pySubscript, hany, hdf]

theorem handlerBody_no_error {df : Option (List MedicineRow)}
    {kvs : List (String × Json)} {name : Option String} {salts : Option (List String)}
    (hdf : dictFind kvs "error" = none)
    (hn : nameFragment (dictFind kvs "medicine_name") = .ok name)
    (hsx : saltsFragment ((dictFind kvs "active_salts").getD (Json.arr [])) = .ok salts) :
    handlerBody df (Json.obj kvs) =
      match find_medicine_details df name salts with
      | .error e => (true, .error e)
      | .ok od => (true, .ok (HandlerResponse.success "Data extracted successfully"
          (Json.obj (mergeOut kvs od)))) := by
  have hany := any_of_dictFind_none hdf
  cases hfind : find_medicine_details df name salts with
  | error e => simp [handlerBody, pyIn, hany, hn, hsx, hfind]
  | ok od => simp [handlerBody, pyIn, hany, hn, hsx, hfind]

theorem handlerBody_success_inv {df : Option (List MedicineRow)} {j : Json}
    {msg : String} {data : Json}
    (h : (handlerBody df j).2 = .ok (HandlerResponse.success msg data)) :
    ∃ kvs name salts od,
      j = Json.obj kvs ∧
      dictFind kvs "error" = none ∧
      nameFragment (dictFind kvs "medicine_name") = .ok name ∧
      saltsFragment ((dictFind kvs "active_salts").getD (Json.arr [])) = .ok salts ∧
      find_medicine_details df name salts = .ok od ∧
      msg = "Data extracted successfully" ∧ data = Json.obj (mergeOut kvs od) := by
  cases j with
  | null => exact absurd h (by simp [handlerBody, pyIn])
  | bool b => exact absurd h (by simp [handlerBody, pyIn])
  | num n => exact absurd h (by simp [handlerBody, pyIn])
  | str s =>
    by_cases hb : hasSubCS "error".data s.data
    · have hx : handlerBody df (Json.str s) =
          (false, .error "TypeError: string indices must be integers") := by
        simp [handlerBody, pyIn, pySubscript, hb]
      rw [hx] at h
      cases h
    · have hx : handlerBody df (Json.str s) =
          (false, .error "AttributeError: object has no attribute get") := by
        simp [handlerBody, pyIn, pySubscript, hb]
      rw [hx] at h
      cases h
  | arr xs =>
    by_cases hb : (xs.any fun x => match x with | Json.str s => s == "error" | _ => false)
    · have hx : handlerBody df (Json.arr xs) =
          (false, .error "TypeError: list indices must be integers") := by
        simp [handlerBody, pyIn, pySubscript, hb]
      rw [hx] at h
      cases h
    · have hx : handlerBody df (Json.arr xs) =
          (false, .error "AttributeError: object has no attribute get") := by
        simp only [handlerBody, pyIn]
        rw [Bool.eq_false_iff.mpr hb]
      rw [hx] at h
      cases h
  | obj kvs =>
    cases hany : (kvs.any fun p => p.1 == "error") with
    | true =>
      cases hdf : dictFind kvs "error" with
      | some v =>
        rw [handlerBody_error_key hdf] at h
        cases h
      | none =>
        rw [any_of_dictFind_none hdf] at hany
        cases hany
    | false =>
      have hdf : dictFind kvs "error" = none := dictFind_none_of_any_false hany
      cases hn : nameFragment (dictFind kvs "medicine_name") with
      | error e =>
        have hx : handlerBody df (Json.obj kvs) = (false, .error e) := by
          simp [handlerBody, pyIn, hany, hn]
        rw [hx] at h
        cases h
      | ok name =>
        cases hsx : saltsFragment ((dictFind kvs "active_salts").getD (Json.arr [])) with
        | error e =>
          have hx : handlerBody df (Json.obj kvs) = (false, .error e) := by
            simp [handlerBody, pyIn, hany, hn, hsx]
          rw [hx] at h
          cases h
        | ok salts =>
          cases hfind : find_medicine_details df name salts with
          | error e =>
            have hx : handlerBody df (Json.obj kvs) = (true, .error e) := by
              simp [handlerBody, pyIn, hany, hn, hsx, hfind]
            rw [hx] at h
            cases h
          | ok od =>
            have hx : handlerBody df (Json.obj kvs) =
                (true, .ok (HandlerResponse.success "Data extracted successfully"
                  (Json.obj (mergeOut kvs od)))) := by
              simp [handlerBody, pyIn, hany, hn, hsx, hfind]
            rw [hx] at h
            simp only [Except.ok.injEq, HandlerResponse.success.injEq] at h
            exact ⟨kvs, name, salts, od, rfl, hdf, hn, hsx, hfind, h.1.symm, h.2.symm⟩

theorem extract_medicine_data_outcome (df : Option (List MedicineRow))
    (modelResp : Except String String) :
    (extract_medicine_data df modelResp).outcome =
      (handlerBody df (extract_data_from_image modelResp)).2 := rfl

theorem extract_medicine_data_events (df : Option (List MedicineRow))
    (modelResp : Except String String) :
    (extract_medicine_data df modelResp).events =
      [Ev.createTmp, Ev.extractCall] ++
        (if (handlerBody df (extract_data_from_image modelResp)).1 then [Ev.lookupCall] else []) ++
        [Ev.unlink] := rfl

/-! ## Claims C7-C10: the request handler -/

/-- C7: whenever the handler returns the success envelope, the returned
data object contains both `uses` and `side_effects` keys: copied from the
matched row's details when the lookup matched, else both set to the fixed
sentinel string "No information found in our database.". -/
theorem c7_uses_side_effects_present (df : Option (List MedicineRow))
    (modelResp : Except String String) (msg : String) (data : Json)
    (hs : (extract_medicine_data df modelResp).outcome =
      .ok (HandlerResponse.success msg data)) :
    (jGet data "uses").isSome ∧ (jGet data "side_effects").isSome ∧
    ∃ kvs name salts,
      extract_data_from_image modelResp = Json.obj kvs ∧
      nameFragment (dictFind kvs "medicine_name") = .ok name ∧
      saltsFragment ((dictFind kvs "active_salts").getD (Json.arr [])) = .ok salts ∧
      ((∃ d, find_medicine_details df name salts = .ok (some d) ∧
          jGet data "uses" = some (optStrJson d.uses) ∧
          jGet data "side_effects" = some (optStrJson d.side_effects)) ∨
        (find_medicine_details df name salts = .ok none ∧
          jGet data "uses" = some (Json.str sentinel) ∧
          jGet data "side_effects" = some (Json.str sentinel))) := by
  have h : (handlerBody df (extract_data_from_image modelResp)).2 =
      .ok (HandlerResponse.success msg data) := hs
  obtain ⟨kvs, name, salts, od, hj, hdf, hn, hsx, hfind, hmsg, hdata⟩ :=
    handlerBody_success_inv h
  subst hdata
  have hu := mergeOut_uses kvs od
  have hse := mergeOut_side_effects kvs od
  refine ⟨by simp [jGet, hu], by simp [jGet, hse], kvs, name, salts, hj, hn, hsx, ?_⟩
  cases od with
  | some d => exact Or.inl ⟨d, hfind, hu, hse⟩
  | none => exact Or.inr ⟨hfind, hu, hse⟩

/-- C7 witness: the theorem at a concrete request with an empty extracted
record and a missing dataset (both keys hold the sentinel). -/
theorem c7_uses_side_effects_present_witness :
    ((jGet (Json.obj [("uses", Json.str sentinel), ("side_effects", Json.str sentinel)])
        "uses").isSome ∧
      (jGet (Json.obj [("uses", Json.str sentinel), ("side_effects", Json.str sentinel)])
        "side_effects").isSome ∧
      ∃ kvs name salts,
        extract_data_from_image (Except.ok "\x7b\x7d") = Json.obj kvs ∧
        nameFragment (dictFind kvs "medicine_name") = .ok name ∧
        saltsFragment ((dictFind kvs "active_salts").getD (Json.arr [])) = .ok salts ∧
        ((∃ d, find_medicine_details none name salts = .ok (some d) ∧
            jGet (Json.obj [("uses", Json.str sentinel), ("side_effects", Json.str sentinel)])
              "uses" = some (optStrJson d.uses) ∧
            jGet (Json.obj [("uses", Json.str sentinel), ("side_effects", Json.str sentinel)])
              "side_effects" = some (optStrJson d.side_effects)) ∨
          (find_medicine_details none name salts = .ok none ∧
            jGet (Json.obj [("uses", Json.str sentinel), ("side_effects", Json.str sentinel)])
              "uses" = some (Json.str sentinel) ∧
            jGet (Json.obj [("uses", Json.str sentinel), ("side_effects", Json.str sentinel)])
              "side_effects" = some (Json.str sentinel)))) :=
  c7_uses_side_effects_present none (Except.ok "\x7b\x7d") "Data extracted successfully"
    (Json.obj [("uses", Json.str sentinel), ("side_effects", Json.str sentinel)]) rfl

/-- C8: when the extracted record carries an `error` field the handler
responds with HTTP 500 carrying that value as detail and never invokes the
lookup; otherwise (for records in the string/null data-model fragment) it
invokes the lookup with `medicine_name` and `active_salts` drawn from the
record, a missing `active_salts` key defaulting to the empty list, and the
response is determined by the lookup result. -/
theorem c8_error_aborts_else_lookup :
    (∀ (df : Option (List MedicineRow)) (modelResp : Except String String) (v : Json),
      jGet (extract_data_from_image modelResp) "error" = some v →
      (extract_medicine_data df modelResp).outcome =
        .ok (HandlerResponse.httpError 500 v) ∧
      Ev.lookupCall ∉ (extract_medicine_data df modelResp).events) ∧
    (∀ (df : Option (List MedicineRow)) (modelResp : Except String String)
        (kvs : List (String × Json)) (name : Option String) (salts : Option (List String)),
      extract_data_from_image modelResp = Json.obj kvs →
      dictFind kvs "error" = none →
      nameFragment (dictFind kvs "medicine_name") = .ok name →
      saltsFragment ((dictFind kvs "active_salts").getD (Json.arr [])) = .ok salts →
      Ev.lookupCall ∈ (extract_medicine_data df modelResp).events ∧
      (extract_medicine_data df modelResp).outcome =
        match find_medicine_details df name salts with
        | .error e => .error e
        | .ok od => .ok (HandlerResponse.success "Data extracted successfully"
            (Json.obj (mergeOut kvs od)))) := by
  constructor
  · intro df resp v hv
    cases hj : extract_data_from_image resp with
    | obj kvs =>
      rw [hj] at hv
      have hdf : dictFind kvs "error" = some v := hv
      rw [extract_medicine_data_outcome, extract_medicine_data_events, hj,
        handlerBody_error_key hdf]
      refine ⟨rfl, by simp⟩
    | null => rw [hj] at hv; exact absurd hv (by simp [jGet])
    | bool b => rw [hj] at hv; exact absurd hv (by simp [jGet])
    | num n => rw [hj] at hv; exact absurd hv (by simp [jGet])
    | str s => rw [hj] at hv; exact absurd hv (by simp [jGet])
    | arr xs => rw [hj] at hv; exact absurd hv (by simp [jGet])
  · intro df resp kvs name salts hj hdf hn hsx
    rw [extract_medicine_data_outcome, extract_medicine_data_events, hj,
      handlerBody_no_error hdf hn hsx]
    cases hfind : find_medicine_details df name salts with
    | error e => exact ⟨by simp, rfl⟩
    | ok od => exact ⟨by simp, rfl⟩

/-- C8 witness: the theorem's two parts at concrete requests: a failed
external call produces the error record and a 500 with its message, no
lookup; an empty extracted record reaches the lookup with no name and the
defaulted empty salt list. -/
theorem c8_error_aborts_else_lookup_witness :
    ((extract_medicine_data none (Except.error "boom")).outcome =
        .ok (HandlerResponse.httpError 500
          (Json.str "An internal error occurred during processing.")) ∧
      Ev.lookupCall ∉ (extract_medicine_data none (Except.error "boom")).events) ∧
    (Ev.lookupCall ∈ (extract_medicine_data none (Except.ok "\x7b\x7d")).events ∧
      (extract_medicine_data none (Except.ok "\x7b\x7d")).outcome =
        match find_medicine_details none none (some []) with
        | .error e => .error e
        | .ok od => .ok (HandlerResponse.success "Data extracted successfully"
            (Json.obj (mergeOut [] od)))) :=
  ⟨c8_error_aborts_else_lookup.1 none (Except.error "boom")
      (Json.str "An internal error occurred during processing.") rfl,
    c8_error_aborts_else_lookup.2 none (Except.ok "\x7b\x7d") [] none (some [])
      rfl rfl rfl rfl⟩

/-- C9: the temp file is removed on every exit path of the handler: for
every dataset and model outcome (success envelope, raised HTTPException,
or any other exception), the unlink event is present and is the last
event of the request. -/
theorem c9_temp_file_always_removed (df : Option (List MedicineRow))
    (modelResp : Except String String) :
    (extract_medicine_data df modelResp).events.getLast? = some Ev.unlink ∧
    Ev.unlink ∈ (extract_medicine_data df modelResp).events := by
  rw [extract_medicine_data_events]
  cases (handlerBody df (extract_data_from_image modelResp)).1 <;> simp

/-- C10: the merge step only adds or overwrites the keys `uses` and
`side_effects`; every other key of the extracted record is unchanged in
the returned data object (a lookup match is a record with exactly those
two fields). -/
theorem c10_merge_preserves_other_keys (df : Option (List MedicineRow))
    (modelResp : Except String String) (msg : String) (data : Json) (k : String)
    (hs : (extract_medicine_data df modelResp).outcome =
      .ok (HandlerResponse.success msg data))
    (h1 : k ≠ "uses") (h2 : k ≠ "side_effects") :
    jGet data k = jGet (extract_data_from_image modelResp) k ∧
    (jGet data "uses").isSome ∧ (jGet data "side_effects").isSome := by
  have h : (handlerBody df (extract_data_from_image modelResp)).2 =
      .ok (HandlerResponse.success msg data) := hs
  obtain ⟨kvs, name, salts, od, hj, hdf, hn, hsx, hfind, hmsg, hdata⟩ :=
    handlerBody_success_inv h
  subst hdata
  rw [hj]
  exact ⟨mergeOut_other kvs od k h1 h2,
    by simp [jGet, mergeOut_uses], by simp [jGet, mergeOut_side_effects]⟩

/-- C10 witness: the theorem at a concrete request whose extracted record
has one extra key "a", preserved by the merge. -/
theorem c10_merge_preserves_other_keys_witness :
    jGet (Json.obj [("a", Json.null), ("uses", Json.str sentinel),
        ("side_effects", Json.str sentinel)]) "a" =
      jGet (extract_data_from_image (Except.ok "\x7b\"a\":null\x7d")) "a" ∧
    (jGet (Json.obj [("a", Json.null), ("uses", Json.str sentinel),
        ("side_effects", Json.str sentinel)]) "uses").isSome ∧
    (jGet (Json.obj [("a", Json.null), ("uses", Json.str sentinel),
        ("side_effects", Json.str sentinel)]) "side_effects").isSome :=
  c10_merge_preserves_other_keys none (Except.ok "\x7b\"a\":null\x7d")
    "Data extracted successfully"
    (Json.obj [("a", Json.null), ("uses", Json.str sentinel),
      ("side_effects", Json.str sentinel)]) "a" rfl (by decide) (by decide)
